import Mathlib

/-!
Verification of the processed-agent-data service (`src/main.py` and
`src/models/processed_agent_data.py`): a shallow embedding of its record
validation, persistence operations, subscription fan-out and request routing,
together with theorems settling the specified properties.

Conventions of the embedding:
* SQL rows are a `Row` structure mirroring the `processed_agent_data` table
  declared in `main.py` (columns id, road_state, user_id, x, y, z, latitude,
  longitude, timestamp); the database is a list of rows plus the next
  auto-increment id.
* Python exceptions are explicit: functions that can raise return `Except`
  or pair their effects with an `Option PyErr`. Effects performed before an
  exception (committed rows, delivered messages) stay performed, as in Python.
* Floats are modelled as `Rat`, timestamps as an integer epoch value.
-/

/-- Raw JSON-ish values as they arrive in a request body, before pydantic
validation. `jnan` stands for a non-finite float, `jtime t` for a string that
parses to the date-time `t`, while `jstr` is a string that is not a date-time. -/
inductive JVal where
  | jstr (s : String)
  | jint (n : Int)
  | jnum (q : Rat)
  | jnan
  | jtime (t : Int)
  | jnull
deriving DecidableEq

/-- Pydantic validation failure, carrying the offending field path. -/
inductive VErr where
  | invalid (loc : String)
deriving DecidableEq

/-- Validated accelerometer reading (x, y, z), from the usage in `main.py`
(`item.agent_data.accelerometer.x` and friends). -/
structure Accelerometer where
  x : Rat
  y : Rat
  z : Rat
deriving DecidableEq

/-- Validated GPS reading, from the usage in `main.py`. -/
structure Gps where
  latitude : Rat
  longitude : Rat
deriving DecidableEq

/-- Validated agent data. The field set is fixed by `main.py`'s accesses
(`user_id`, `accelerometer`, `gps`, `timestamp`); `models/agent_data.py`
itself is not under src/. -/
structure AgentData where
  user_id : Int
  accelerometer : Accelerometer
  gps : Gps
  timestamp : Int
deriving DecidableEq

/-- Validated processed agent data, from `src/models/processed_agent_data.py`:
`road_state: str` and `agent_data: AgentData`, with no further validator. -/
structure ProcessedAgentData where
  road_state : String
  agent_data : AgentData
deriving DecidableEq

/-- Raw (unvalidated) accelerometer payload. -/
structure RawAccelerometer where
  x : JVal
  y : JVal
  z : JVal
deriving DecidableEq

/-- Raw GPS payload. -/
structure RawGps where
  latitude : JVal
  longitude : JVal
deriving DecidableEq

/-- Raw agent-data payload. -/
structure RawAgentData where
  user_id : JVal
  accelerometer : RawAccelerometer
  gps : RawGps
  timestamp : JVal
deriving DecidableEq

/-- Raw processed-agent-data payload. -/
structure RawProcessedAgentData where
  road_state : JVal
  agent_data : RawAgentData
deriving DecidableEq

/-- Pydantic `str` field: accepts any string, with no non-emptiness
constraint (`road_state: str` in `src/models/processed_agent_data.py`). -/
def validate_str (loc : String) : JVal → Except VErr String
  | .jstr s => .ok s
  | _ => .error (.invalid loc)

/-- Modelled from the spec: `models/agent_data.py` is not under src/; the spec
requires `user_id` to be an integer. -/
def validate_int (loc : String) : JVal → Except VErr Int
  | .jint n => .ok n
  | _ => .error (.invalid loc)

/-- Modelled from the spec: `models/agent_data.py` is not under src/; the spec
requires the accelerometer and GPS components to be finite numbers. -/
def validate_finite (loc : String) : JVal → Except VErr Rat
  | .jint n => .ok (n : Rat)
  | .jnum q => .ok q
  | _ => .error (.invalid loc)

/-- Modelled from the spec: `models/agent_data.py` is not under src/; the spec
requires `timestamp` to parse to a valid date-time. -/
def validate_time (loc : String) : JVal → Except VErr Int
  | .jtime t => .ok t
  | _ => .error (.invalid loc)

/-- Validation of an `AgentData` payload, field by field. -/
def AgentData.model_validate (raw : RawAgentData) : Except VErr AgentData := do
  let uid ← validate_int "agent_data.user_id" raw.user_id
  let ax ← validate_finite "agent_data.accelerometer.x" raw.accelerometer.x
  let ay ← validate_finite "agent_data.accelerometer.y" raw.accelerometer.y
  let az ← validate_finite "agent_data.accelerometer.z" raw.accelerometer.z
  let la ← validate_finite "agent_data.gps.latitude" raw.gps.latitude
  let lo ← validate_finite "agent_data.gps.longitude" raw.gps.longitude
  let ts ← validate_time "agent_data.timestamp" raw.timestamp
  return ⟨uid, ⟨ax, ay, az⟩, ⟨la, lo⟩, ts⟩

/-- Validation of a `ProcessedAgentData` payload: `road_state` is any string
(just the `str` annotation in src), then the nested agent data is validated. -/
def ProcessedAgentData.model_validate (raw : RawProcessedAgentData) :
    Except VErr ProcessedAgentData := do
  let rs ← validate_str "road_state" raw.road_state
  let ad ← AgentData.model_validate raw.agent_data
  return ⟨rs, ad⟩

/-- Validation of a whole request body (`data: List[ProcessedAgentData]`),
failing on the first invalid item, as FastAPI does before the handler runs. -/
def validateAll : List RawProcessedAgentData → Except VErr (List ProcessedAgentData)
  | [] => .ok []
  | raw :: rest => do
    let d ← ProcessedAgentData.model_validate raw
    let ds ← validateAll rest
    return d :: ds

/-- A row of the `processed_agent_data` table as declared in `main.py`
(columns id, road_state, user_id, x, y, z, latitude, longitude, timestamp).
The response model `ProcessedAgentDataInDB` is built from such a row by
`ProcessedAgentDataInDB(**row._asdict())`, so it has exactly these fields. -/
structure Row where
  id : Int
  road_state : String
  user_id : Int
  x : Rat
  y : Rat
  z : Rat
  latitude : Rat
  longitude : Rat
  timestamp : Int
deriving DecidableEq

/-- The relational store: committed rows plus the next auto-increment id. -/
structure DB where
  rows : List Row
  nextId : Int
deriving DecidableEq

/-- The `.values(...)` mapping of the insert/update statements in `main.py`:
how a validated record's fields populate a row with identifier `i`. -/
def insertValues (i : Int) (d : ProcessedAgentData) : Row :=
  { id := i
    road_state := d.road_state
    user_id := d.agent_data.user_id
    x := d.agent_data.accelerometer.x
    y := d.agent_data.accelerometer.y
    z := d.agent_data.accelerometer.z
    latitude := d.agent_data.gps.latitude
    longitude := d.agent_data.gps.longitude
    timestamp := d.agent_data.timestamp }

/-- Committing one insert: the row gets the next auto-increment id. -/
def DB.insert (db : DB) (d : ProcessedAgentData) : DB × Int :=
  ({ rows := db.rows ++ [insertValues db.nextId d], nextId := db.nextId + 1 }, db.nextId)

/-- Committing a list of inserts in order. -/
def DB.insertAll (db : DB) : List ProcessedAgentData → DB
  | [] => db
  | d :: rest => (db.insert d).1.insertAll rest

/-- Well-formedness of the store: every committed id is below the next
auto-increment id (true of every store reachable from an empty one). -/
def DB.wf (db : DB) : Prop := ∀ r ∈ db.rows, r.id < db.nextId

instance (db : DB) : Decidable db.wf := by
  unfold DB.wf; infer_instance

/-- A connected WebSocket handle; `sendFails` records whether a send on this
handle raises (the peer vanished, the socket broke, ...). -/
structure WS where
  wsId : Nat
  sendFails : Bool
deriving DecidableEq

/-- The module-level `subscriptions: Dict[int, Set[WebSocket]]`, as an
association list from user id to the registered handles in iteration order. -/
abbrev Subs := List (Int × List WS)

/-- Dictionary lookup `subscriptions[user_id]` (with the `user_id in
subscriptions` membership test). -/
def subsFind : Subs → Int → Option (List WS)
  | [], _ => none
  | (u, wss) :: rest, uid => if u = uid then some wss else subsFind rest uid

/-- Python exceptions that arise in the fan-out path. -/
inductive PyErr where
  | typeError
  | sendError
deriving DecidableEq

/-- The Python object handed to `send_data_to_subscribers`: in `main.py` it is
the SQLAlchemy `CursorResult` of the insert (`result`), never the record. -/
inductive PyData where
  | cursor (insertedId : Int)
  | text (s : String)
deriving DecidableEq

/-- `json.dumps`: a `CursorResult` is not JSON-serializable, so dumping it
raises `TypeError`; a string serializes to its quoted form. -/
def json_dumps : PyData → Except PyErr String
  | .cursor _ => .error .typeError
  | .text s => .ok (String.append (String.append "\"" s) "\"")

/-- Observable events of a request: a committed row, the broadcast call for a
row, and an actual delivery to one handle. -/
inductive Event where
  | committed (rowId : Int)
  | sendAttempt (userId : Int) (data : PyData)
  | delivered (wsId : Nat) (payload : String)
deriving DecidableEq

/-- The body of the `for websocket in subscriptions[user_id]` loop in
`send_data_to_subscribers`: each iteration evaluates `json.dumps(data)` and
then `websocket.send_json(...)`; the first exception aborts the loop,
leaving the deliveries made so far in place. -/
def sendAll (data : PyData) : List WS → List Event × Option PyErr
  | [] => ([], none)
  | ws :: rest =>
    match json_dumps data with
    | .error e => ([], some e)
    | .ok s =>
      if ws.sendFails then ([], some .sendError)
      else
        let (evs, err) := sendAll data rest
        (.delivered ws.wsId s :: evs, err)

/-- `send_data_to_subscribers` from `main.py`: if the user id has an entry in
the subscriptions dict, send the serialized data to each registered handle;
no per-handle error handling, no removal of failed handles. -/
def send_data_to_subscribers (subs : Subs) (user_id : Int) (data : PyData) :
    List Event × Option PyErr :=
  match subsFind subs user_id with
  | none => ([], none)
  | some wss => sendAll data wss

/-- In-process application state: the store and the subscriptions dict. -/
structure AppState where
  db : DB
  subscriptions : Subs
deriving DecidableEq

/-- The `for item in data` loop of `create_processed_agent_data`: insert and
commit the item, then call `send_data_to_subscribers` with the insert's
`CursorResult`. An exception stops the loop (the `except` clause rolls back —
a no-op after the commit — and re-raises); the effects already performed
remain. Returns the final state, the event trace in order, and the exception
if one was raised. -/
def createLoop (st : AppState) : List ProcessedAgentData → AppState × List Event × Option PyErr
  | [] => (st, [], none)
  | item :: rest =>
    let (db', newId) := st.db.insert item
    let st' : AppState := { st with db := db' }
    let (evs, err) :=
      send_data_to_subscribers st.subscriptions item.agent_data.user_id (.cursor newId)
    let itemEvs :=
      Event.committed newId ::
        Event.sendAttempt item.agent_data.user_id (.cursor newId) :: evs
    match err with
    | some e => (st', itemEvs, some e)
    | none =>
      let (st2, evs2, err2) := createLoop st' rest
      (st2, itemEvs ++ evs2, err2)

/-- The `POST /processed_agent_data/` handler on already-validated items: it
runs the loop and — having no `return` statement — answers `None` on success
(`Except.ok none`), or lets the exception escape (`Except.error`). -/
def create_processed_agent_data (st : AppState) (data : List ProcessedAgentData) :
    AppState × List Event × Except PyErr (Option Row) :=
  let (st', tr, err) := createLoop st data
  match err with
  | some e => (st', tr, .error e)
  | none => (st', tr, .ok none)

/-- The event trace of one create request. -/
def createTrace (st : AppState) (data : List ProcessedAgentData) : List Event :=
  (createLoop st data).2.1

/-- FastAPI's `HTTPException`, as raised by the read/update/delete handlers. -/
structure HTTPException where
  status_code : Nat
  detail : String
deriving DecidableEq

/-- The `GET /processed_agent_data/{id}` handler: select the row by id,
404 when absent. -/
def read_processed_agent_data (i : Int) (db : DB) : Except HTTPException Row :=
  match db.rows.find? (fun r => r.id == i) with
  | none => .error ⟨404, "ProcessedAgentData not found"⟩
  | some r => .ok r

/-- The `GET /processed_agent_data/` handler: all rows. -/
def list_processed_agent_data (db : DB) : List Row :=
  db.rows

/-- The `PUT /processed_agent_data/{id}` handler: execute the update (setting
every field except `id` on each matching row), commit, 404 when the update
matched no row, then select the row back and return it. -/
def update_processed_agent_data (i : Int) (d : ProcessedAgentData) (db : DB) :
    Except HTTPException Row × DB :=
  let rows' := db.rows.map (fun r => if r.id == i then insertValues r.id d else r)
  let rowcount := (db.rows.filter (fun r => r.id == i)).length
  let db' : DB := { db with rows := rows' }
  if rowcount = 0 then (.error ⟨404, "ProcessedAgentData not found"⟩, db')
  else
    match rows'.find? (fun r => r.id == i) with
    | none => (.error ⟨404, "Failed to fetch updated ProcessedAgentData"⟩, db')
    | some r => (.ok r, db')

/-- The `DELETE /processed_agent_data/{id}` handler: select the row by id,
404 when absent, else delete the matching rows, commit, and return the row as
it was fetched before the deletion. -/
def delete_processed_agent_data (i : Int) (db : DB) : Except HTTPException Row × DB :=
  match db.rows.find? (fun r => r.id == i) with
  | none => (.error ⟨404, "ProcessedAgentData not found"⟩, db)
  | some r => (.ok r, { db with rows := db.rows.filter (fun x => x.id != i) })

/-- A client-visible failure of the create route: request validation (422)
or an unhandled exception from the handler (500). -/
inductive ApiErr where
  | unprocessable (e : VErr)
  | internal (e : PyErr)
deriving DecidableEq

/-- The full `POST /processed_agent_data/` route: FastAPI validates the body
against `List[ProcessedAgentData]` before the handler runs — on failure the
handler is never entered, nothing is written and nothing broadcast. -/
def post_processed_agent_data (st : AppState) (raws : List RawProcessedAgentData) :
    AppState × List Event × Except ApiErr (Option Row) :=
  match validateAll raws with
  | .error e => (st, [], .error (.unprocessable e))
  | .ok items =>
    match create_processed_agent_data st items with
    | (st', tr, .error e) => (st', tr, .error (.internal e))
    | (st', tr, .ok b) => (st', tr, .ok b)

/-- Whether `subscriptions[user_id]` exists and is non-empty — exactly when
the broadcast loop body runs at least once for a create (and hence, the data
being a `CursorResult`, raises `TypeError` at `json.dumps`). -/
def broadcastNonEmpty (subs : Subs) (uid : Int) : Bool :=
  match subsFind subs uid with
  | none => false
  | some wss => !wss.isEmpty

/-- Index of the first item of a batch whose broadcast raises. -/
def firstFailIdx (subs : Subs) : List ProcessedAgentData → Option Nat
  | [] => none
  | item :: rest =>
    if broadcastNonEmpty subs item.agent_data.user_id then some 0
    else (firstFailIdx subs rest).map (· + 1)

/-- How many items of a batch get committed: everything up to and including
the first item whose broadcast raises, or the whole batch. -/
def runLen (subs : Subs) (items : List ProcessedAgentData) : Nat :=
  match firstFailIdx subs items with
  | some k => k + 1
  | none => items.length

/-- The exception escaping a create request, if any. -/
def runErr (subs : Subs) (items : List ProcessedAgentData) : Option PyErr :=
  match firstFailIdx subs items with
  | some _ => some .typeError
  | none => none

/-- The rows a batch inserts when ids are handed out from `n` upward. -/
def batchRows (n : Int) : List ProcessedAgentData → List Row
  | [] => []
  | d :: rest => insertValues n d :: batchRows (n + 1) rest

/-- The event trace of a batch whose every broadcast call is reached: per
item, the commit then the broadcast call (deliveries never occur, the dumped
`CursorResult` raising first). -/
def batchTrace (n : Int) : List ProcessedAgentData → List Event
  | [] => []
  | d :: rest =>
    Event.committed n ::
      Event.sendAttempt d.agent_data.user_id (.cursor n) :: batchTrace (n + 1) rest

/-- Whether an `Except` result is a success. -/
def vOk {α : Type} : Except VErr α → Bool
  | .ok _ => true
  | .error _ => false

/-- Value is a JSON string. -/
def isStrB : JVal → Bool
  | .jstr _ => true
  | _ => false

/-- Value is a JSON integer. -/
def isIntB : JVal → Bool
  | .jint _ => true
  | _ => false

/-- Value is a finite number. -/
def isFiniteB : JVal → Bool
  | .jint _ => true
  | .jnum _ => true
  | _ => false

/-- Value parses as a date-time. -/
def isTimeB : JVal → Bool
  | .jtime _ => true
  | _ => false

/-- The typed constraints on a raw payload, mirroring the spec's list:
`road_state` a string, `user_id` an integer, the five coordinates finite
numbers, the timestamp a valid date-time. -/
def wellFormedRaw (raw : RawProcessedAgentData) : Bool :=
  isStrB raw.road_state &&
  isIntB raw.agent_data.user_id &&
  isFiniteB raw.agent_data.accelerometer.x &&
  isFiniteB raw.agent_data.accelerometer.y &&
  isFiniteB raw.agent_data.accelerometer.z &&
  isFiniteB raw.agent_data.gps.latitude &&
  isFiniteB raw.agent_data.gps.longitude &&
  isTimeB raw.agent_data.timestamp

deriving instance DecidableEq for Except

/-- A concrete valid record for user 7 (the spec's concrete-scenario shape). -/
def pad7 : ProcessedAgentData := ⟨"normal", ⟨7, ⟨1, 2, 98⟩, ⟨50, 30⟩, 1704067200⟩⟩

/-- Fresh server state: empty store (ids from 1), nobody subscribed. -/
def st0 : AppState := ⟨⟨[], 1⟩, []⟩

/-- Fresh store, one healthy handle subscribed under user 7. -/
def st1 : AppState := ⟨⟨[], 1⟩, [(7, [⟨0, false⟩])]⟩

/-- Fresh store; under user 7 a handle whose sends fail, then a healthy one. -/
def st2 : AppState := ⟨⟨[], 1⟩, [(7, [⟨0, true⟩, ⟨1, false⟩])]⟩

/-- A raw agent-data payload that is valid in every field. -/
def rawOkAgent : RawAgentData :=
  ⟨.jint 1, ⟨.jint 1, .jint 1, .jint 1⟩, ⟨.jint 1, .jint 1⟩, .jtime 0⟩

/-- A raw payload whose `road_state` is the empty string and whose other
fields are all valid. -/
def rawEmptyRoad : RawProcessedAgentData := ⟨.jstr "", rawOkAgent⟩

/-- The validated record `rawEmptyRoad` parses to. -/
def padEmptyRoad : ProcessedAgentData := ⟨"", ⟨1, ⟨1, 1, 1⟩, ⟨1, 1⟩, 0⟩⟩

/-- A raw payload whose accelerometer `x` is the string "not-a-number". -/
def rawBadX : RawProcessedAgentData :=
  ⟨.jstr "normal",
   ⟨.jint 1, ⟨.jstr "not-a-number", .jint 1, .jint 1⟩, ⟨.jint 1, .jint 1⟩, .jtime 0⟩⟩

/-! ### Lemmas about the fan-out and create paths -/

/-- Broadcasting a `CursorResult` delivers nothing and raises exactly when
the user has a non-empty set of handles registered. -/
lemma send_cursor (subs : Subs) (uid : Int) (n : Int) :
    send_data_to_subscribers subs uid (.cursor n) =
      ([], if broadcastNonEmpty subs uid then some .typeError else none) := by
  unfold send_data_to_subscribers broadcastNonEmpty
  cases subsFind subs uid with
  | none => rfl
  | some wss =>
    cases wss with
    | nil => rfl
    | cons w tl => rfl

/-- Closed form of the create loop: the committed prefix runs through the
first item whose broadcast raises; the trace is the in-order commit and
broadcast-call events of that prefix; the registry is untouched. -/
lemma createLoop_eq (items : List ProcessedAgentData) (st : AppState) :
    createLoop st items =
      ({ db := st.db.insertAll (items.take (runLen st.subscriptions items)),
         subscriptions := st.subscriptions },
       batchTrace st.db.nextId (items.take (runLen st.subscriptions items)),
       runErr st.subscriptions items) := by
  induction items generalizing st with
  | nil =>
    simp [createLoop, runLen, runErr, firstFailIdx, DB.insertAll, batchTrace]
  | cons d tl ih =>
    cases hb : broadcastNonEmpty st.subscriptions d.agent_data.user_id with
    | true =>
      simp [createLoop, send_cursor, hb, runLen, runErr, firstFailIdx,
        DB.insertAll, DB.insert, batchTrace]
    | false =>
      cases hf : firstFailIdx st.subscriptions tl with
      | none =>
        simp [createLoop, send_cursor, hb, runLen, runErr, firstFailIdx, hf,
          DB.insertAll, DB.insert, batchTrace, ih, List.take_length]
      | some k =>
        simp [createLoop, send_cursor, hb, runLen, runErr, firstFailIdx, hf,
          DB.insertAll, DB.insert, batchTrace, ih, List.take_succ_cons]

/-- The rows after a batch of inserts: the old rows followed by the new ones,
ids handed out from the old next id upward. -/
lemma insertAll_rows (l : List ProcessedAgentData) (db : DB) :
    (db.insertAll l).rows = db.rows ++ batchRows db.nextId l := by
  induction l generalizing db with
  | nil => simp [DB.insertAll, batchRows]
  | cons d tl ih =>
    simp [DB.insertAll, DB.insert, ih, batchRows, List.append_assoc]

/-- The auto-increment counter advances by the number of inserted rows. -/
lemma insertAll_nextId (l : List ProcessedAgentData) (db : DB) :
    (db.insertAll l).nextId = db.nextId + l.length := by
  induction l generalizing db with
  | nil => simp [DB.insertAll]
  | cons d tl ih =>
    simp [DB.insertAll, DB.insert, ih]
    ring

/-- In a batch trace, the broadcast call for a row is always preceded by the
commit of that same row. -/
lemma batchTrace_commit_precedes (l : List ProcessedAgentData) :
    ∀ (n : Int) (i : Nat) (uid rid : Int),
      (batchTrace n l).get? i = some (.sendAttempt uid (.cursor rid)) →
      ∃ j, j < i ∧ (batchTrace n l).get? j = some (.committed rid) := by
  induction l with
  | nil =>
    intro n i uid rid h
    simp [batchTrace] at h
  | cons d tl ih =>
    intro n i uid rid h
    match i with
    | 0 => simp [batchTrace] at h
    | 1 =>
      simp only [batchTrace, List.get?_cons_succ, List.get?_cons_zero,
        Option.some.injEq] at h
      injection h with h1 h2
      injection h2 with h3
      refine ⟨0, Nat.zero_lt_one, ?_⟩
      simp only [batchTrace, List.get?_cons_zero, h3]
    | (j + 2) =>
      have h' : (batchTrace (n + 1) tl).get? j =
          some (.sendAttempt uid (.cursor rid)) := by
        simpa [batchTrace] using h
      obtain ⟨j', hj', hg⟩ := ih (n + 1) j uid rid h'
      exact ⟨j' + 2, by omega, by simpa [batchTrace] using hg⟩

/-- The handler's final state is the loop's final state, whether or not an
exception escaped. -/
lemma create_state_eq (st : AppState) (data : List ProcessedAgentData) :
    (create_processed_agent_data st data).1 = (createLoop st data).1 := by
  unfold create_processed_agent_data
  rcases h : createLoop st data with ⟨st', tr, err⟩
  cases err <;> simp

/-- A one-item batch always commits its single item: the broadcast can only
fail after the commit. -/
lemma runLen_singleton (subs : Subs) (d : ProcessedAgentData) : runLen subs [d] = 1 := by
  unfold runLen firstFailIdx
  cases broadcastNonEmpty subs d.agent_data.user_id <;> simp [firstFailIdx]

/-! ### Lemmas about row lookup -/

/-- `find?` by id misses when no row carries the id. -/
lemma find?_id_eq_none {rows : List Row} {i : Int} (h : ∀ r ∈ rows, r.id ≠ i) :
    rows.find? (fun r => r.id == i) = none :=
  List.find?_eq_none.mpr (fun r hr => by simpa using h r hr)

/-- The update statement leaves every row unchanged when no row matches. -/
lemma map_update_no_match {rows : List Row} {i : Int} (d : ProcessedAgentData)
    (h : ∀ r ∈ rows, r.id ≠ i) :
    rows.map (fun r => if r.id == i then insertValues r.id d else r) = rows := by
  induction rows with
  | nil => rfl
  | cons a tl ih =>
    have ha : ¬((a.id == i) = true) := by
      simpa using h a (List.mem_cons_self a tl)
    have ih' := ih (fun r hr => h r (List.mem_cons_of_mem a hr))
    rw [List.map_cons, if_neg ha, ih']

/-- With distinct ids, looking up the id of a member row finds exactly that
row, and it is the only matching row. -/
lemma find?_filter_of_nodup {rows : List Row} {i : Int} {r : Row}
    (hnd : (rows.map Row.id).Nodup) (hmem : r ∈ rows) (hid : r.id = i) :
    rows.find? (fun x => x.id == i) = some r ∧
      rows.filter (fun x => x.id == i) = [r] := by
  induction rows with
  | nil => cases hmem
  | cons a tl ih =>
    simp only [List.map_cons, List.nodup_cons] at hnd
    rcases List.mem_cons.mp hmem with rfl | hmem'
    · have hfil : tl.filter (fun x => x.id == i) = [] := by
        refine List.filter_eq_nil_iff.mpr (fun x hx => ?_)
        simp only [beq_iff_eq]
        intro hxi
        exact hnd.1 (hid ▸ hxi ▸ List.mem_map_of_mem Row.id hx)
      constructor
      · simp [List.find?_cons, hid]
      · simp [List.filter_cons, hid, hfil]
    · have haid : (a.id == i) = false := by
        simp only [beq_eq_false_iff_ne]
        intro haeq
        have hrmem : r.id ∈ tl.map Row.id := List.mem_map_of_mem Row.id hmem'
        rw [hid] at hrmem
        rw [haeq] at hnd
        exact hnd.1 hrmem
      obtain ⟨hf, hfil⟩ := ih hnd.2 hmem'
      constructor
      · simp [List.find?_cons, haid, hf]
      · simp [List.filter_cons, haid, hfil]

/-! ### Lemmas about validation -/

/-- Pydantic acceptance, characterized: a payload validates exactly when its
fields satisfy the typed constraints — in particular any string `road_state`,
empty or not, is accepted. -/
lemma vOk_eq_wellFormed (raw : RawProcessedAgentData) :
    vOk (ProcessedAgentData.model_validate raw) = wellFormedRaw raw := by
  obtain ⟨rs, ⟨uid, ⟨ax, ay, az⟩, ⟨la, lo⟩, ts⟩⟩ := raw
  simp only [ProcessedAgentData.model_validate, AgentData.model_validate, wellFormedRaw]
  cases rs <;>
    simp [validate_str, isStrB, vOk, Bind.bind, Except.bind]
  all_goals cases uid <;> simp [validate_int, isIntB, vOk]
  all_goals cases ax <;> simp [validate_finite, isFiniteB, vOk]
  all_goals cases ay <;> simp [validate_finite, isFiniteB, vOk]
  all_goals cases az <;> simp [validate_finite, isFiniteB, vOk]
  all_goals cases la <;> simp [validate_finite, isFiniteB, vOk]
  all_goals cases lo <;> simp [validate_finite, isFiniteB, vOk]
  all_goals cases ts <;> simp [validate_time, isTimeB, vOk, Pure.pure, Except.pure]

/-! ### Settled claims -/

/-- Claim C1 (evaluation of the defect): with one healthy handle registered
under user 7, a create with `agent_data.user_id = 7` commits the row and
reaches the broadcast call, yet the trace contains no delivery event at all
and the request raises `TypeError` — because `main.py` hands the insert's
`CursorResult` (not the stored record) to `send_data_to_subscribers`, where
`json.dumps` cannot serialize it. No handle ever receives the JSON-encoded
ProcessedAgentDataInDB payload the claim promises. -/
theorem C1_create_delivers_no_payload :
    createTrace st1 [pad7] = [.committed 1, .sendAttempt 7 (.cursor 1)] ∧
    (create_processed_agent_data st1 [pad7]).2.2 = .error .typeError := by
  decide

/-- Claim C2 (evaluation of the defect): with a failing handle followed by a
healthy one registered under user 7, a broadcast of a serializable payload
raises on the first handle and aborts: the healthy handle receives nothing
(empty delivery list), the exception propagates, and — the loop having no
removal code — the registry after the request still holds both handles. -/
theorem C2_send_failure_aborts_broadcast :
    send_data_to_subscribers st2.subscriptions 7 (.text "payload") =
      ([], some .sendError) ∧
    (createLoop st2 [pad7]).1.subscriptions = [(7, [⟨0, true⟩, ⟨1, false⟩])] := by
  decide

/-- Claim C3 (counterexample): with a subscriber registered under user 7, a
create for user 7 surfaces the broadcast failure to the HTTP caller as an
exception — even though the row was already committed and remains stored. -/
theorem C3_broadcast_error_reaches_caller :
    (create_processed_agent_data st1 [pad7]).2.2 = .error .typeError ∧
    insertValues 1 pad7 ∈ (create_processed_agent_data st1 [pad7]).1.db.rows := by
  decide

/-- Claim C3 (amended): whenever the broadcast for a created record fails
(any non-empty handle set for its user id makes it fail), the create request
surfaces an error to the caller; but the commit precedes the broadcast, so
the committed row remains stored regardless of the broadcast outcome. -/
theorem C3_amended_row_survives_broadcast_failure (st : AppState)
    (d : ProcessedAgentData)
    (h : broadcastNonEmpty st.subscriptions d.agent_data.user_id = true) :
    (create_processed_agent_data st [d]).2.2 = .error .typeError ∧
    insertValues st.db.nextId d ∈ (create_processed_agent_data st [d]).1.db.rows := by
  have hr : runErr st.subscriptions [d] = some .typeError := by
    unfold runErr firstFailIdx
    simp [h]
  have hdb : (create_processed_agent_data st [d]).1.db =
      st.db.insertAll [d] := by
    rw [create_state_eq, createLoop_eq]
    simp [runLen_singleton]
  constructor
  · unfold create_processed_agent_data
    rw [createLoop_eq]
    simp [hr]
  · rw [hdb, insertAll_rows]
    simp [batchRows]

/-- Claim C3 (witness for the amended theorem). -/
theorem C3_amended_witness :
    (create_processed_agent_data st2 [pad7]).2.2 = .error .typeError ∧
    insertValues 1 pad7 ∈ (create_processed_agent_data st2 [pad7]).1.db.rows :=
  C3_amended_row_survives_broadcast_failure st2 pad7 (by decide)

/-- Claim C4 (counterexample): a create of a valid record into a fresh store
commits the row with assigned id 1, yet the response body is `None` — not the
stored record with its id that the claim promises. -/
theorem C4_create_returns_no_record :
    (create_processed_agent_data st0 [pad7]).2.2 = .ok none ∧
    (create_processed_agent_data st0 [pad7]).1.db.rows = [insertValues 1 pad7] ∧
    (Except.ok none : Except PyErr (Option Row)) ≠ .ok (some (insertValues 1 pad7)) := by
  decide

/-- Claim C4 (amended): the create handler stores the records and assigns
ids, but — having no return statement — never returns any stored record to
the caller: the response is `None` on success, an error otherwise. -/
theorem C4_amended_create_returns_none (st : AppState)
    (items : List ProcessedAgentData) (r : Row) :
    (create_processed_agent_data st items).2.2 ≠ .ok (some r) ∧
    (runErr st.subscriptions items = none →
      (create_processed_agent_data st items).1.db = st.db.insertAll items) := by
  constructor
  · unfold create_processed_agent_data
    rw [createLoop_eq]
    cases h : runErr st.subscriptions items <;> simp [h]
  · intro h
    rw [create_state_eq, createLoop_eq]
    unfold runErr at h
    unfold runLen
    cases hf : firstFailIdx st.subscriptions items with
    | none => simp [List.take_length]
    | some k => rw [hf] at h; simp at h

/-- Claim C4 (witness for the amended theorem). -/
theorem C4_amended_witness :
    (create_processed_agent_data st0 [pad7]).2.2 ≠ .ok (some (insertValues 1 pad7)) ∧
    (create_processed_agent_data st0 [pad7]).1.db = st0.db.insertAll [pad7] :=
  ⟨(C4_amended_create_returns_none st0 [pad7] (insertValues 1 pad7)).1,
   (C4_amended_create_returns_none st0 [pad7] (insertValues 1 pad7)).2 (by decide)⟩

/-- Claim C5 (counterexample): a payload whose `road_state` is the empty
string and whose other fields are valid passes validation — `road_state: str`
carries no non-emptiness constraint — and the subsequent POST writes a row
with the empty road state, contradicting "validation fails ... no row is
written". -/
theorem C5_empty_road_state_accepted :
    ProcessedAgentData.model_validate rawEmptyRoad = .ok padEmptyRoad ∧
    (post_processed_agent_data st0 [rawEmptyRoad]).1.db.rows =
      [insertValues 1 padEmptyRoad] := by
  decide

/-- Claim C5 (amended): request validation runs before the handler, so a
validation failure yields a 422 with no row written and no broadcast; and a
payload validates exactly when `road_state` is a string (empty allowed),
`user_id` an integer, the five coordinates finite numbers and the timestamp a
valid date-time. -/
theorem C5_amended_validation_boundary :
    (∀ (st : AppState) (raws : List RawProcessedAgentData) (e : VErr),
        validateAll raws = .error e →
        post_processed_agent_data st raws = (st, [], .error (.unprocessable e))) ∧
    (∀ raw : RawProcessedAgentData,
        vOk (ProcessedAgentData.model_validate raw) = wellFormedRaw raw) := by
  constructor
  · intro st raws e h
    unfold post_processed_agent_data
    rw [h]
  · exact vOk_eq_wellFormed

/-- Claim C5 (witness for the amended theorem): the spec's own rejection
example, an accelerometer `x` of "not-a-number", is rejected before the
handler, leaving state untouched. -/
theorem C5_amended_witness :
    post_processed_agent_data st0 [rawBadX] =
      (st0, [], .error (.unprocessable (.invalid "agent_data.accelerometer.x"))) ∧
    vOk (ProcessedAgentData.model_validate rawBadX) = wellFormedRaw rawBadX :=
  ⟨C5_amended_validation_boundary.1 st0 [rawBadX]
      (.invalid "agent_data.accelerometer.x") (by decide),
   C5_amended_validation_boundary.2 rawBadX⟩

/-- Claim C6: reading back the id assigned by a create returns a stored
record equal to the submitted record in every field except the assigned id
(the broadcast outcome cannot interfere — the commit already happened). -/
theorem C6_round_trip (st : AppState) (d : ProcessedAgentData) (h : st.db.wf) :
    read_processed_agent_data st.db.nextId (create_processed_agent_data st [d]).1.db =
      .ok { id := st.db.nextId
            road_state := d.road_state
            user_id := d.agent_data.user_id
            x := d.agent_data.accelerometer.x
            y := d.agent_data.accelerometer.y
            z := d.agent_data.accelerometer.z
            latitude := d.agent_data.gps.latitude
            longitude := d.agent_data.gps.longitude
            timestamp := d.agent_data.timestamp } := by
  have hdb : (create_processed_agent_data st [d]).1.db = st.db.insertAll [d] := by
    rw [create_state_eq, createLoop_eq]
    simp [runLen_singleton]
  rw [hdb]
  have hrows : (st.db.insertAll [d]).rows =
      st.db.rows ++ [insertValues st.db.nextId d] := by
    rw [insertAll_rows]
    simp [batchRows]
  unfold read_processed_agent_data
  rw [hrows, List.find?_append]
  have hnone : st.db.rows.find? (fun r => r.id == st.db.nextId) = none :=
    find?_id_eq_none (fun r hr => Int.ne_of_lt (h r hr))
  rw [hnone]
  simp [List.find?_cons, insertValues]

/-- Claim C6 (witness): the spec's concrete scenario — create into a fresh
store, read back id 1, every field preserved. -/
theorem C6_round_trip_witness :
    read_processed_agent_data 1 (create_processed_agent_data st0 [pad7]).1.db =
      .ok { id := 1, road_state := "normal", user_id := 7, x := 1, y := 2, z := 98,
            latitude := 50, longitude := 30, timestamp := 1704067200 } :=
  C6_round_trip st0 pad7 (by decide)

/-- Claim C7: on an id carried by no stored row, read, update and delete all
fail with the 404 `HTTPException` "ProcessedAgentData not found", and each
leaves the store exactly as it was. -/
theorem C7_not_found (db : DB) (i : Int) (d : ProcessedAgentData)
    (h : ∀ r ∈ db.rows, r.id ≠ i) :
    read_processed_agent_data i db = .error ⟨404, "ProcessedAgentData not found"⟩ ∧
    update_processed_agent_data i d db =
      (.error ⟨404, "ProcessedAgentData not found"⟩, db) ∧
    delete_processed_agent_data i db =
      (.error ⟨404, "ProcessedAgentData not found"⟩, db) := by
  have hf := find?_id_eq_none h
  refine ⟨?_, ?_, ?_⟩
  · unfold read_processed_agent_data
    rw [hf]
  · have hfil : db.rows.filter (fun r => r.id == i) = [] :=
      List.filter_eq_nil_iff.mpr (fun r hr => by simpa using h r hr)
    have hmap := map_update_no_match d h
    unfold update_processed_agent_data
    simp only [hfil, hmap, List.length_nil]
    simp
  · unfold delete_processed_agent_data
    rw [hf]

/-- Claim C7 (witness): id 5 against a store holding only id 1. -/
theorem C7_not_found_witness :
    read_processed_agent_data 5 ⟨[insertValues 1 pad7], 2⟩ =
      .error ⟨404, "ProcessedAgentData not found"⟩ ∧
    update_processed_agent_data 5 pad7 ⟨[insertValues 1 pad7], 2⟩ =
      (.error ⟨404, "ProcessedAgentData not found"⟩, ⟨[insertValues 1 pad7], 2⟩) ∧
    delete_processed_agent_data 5 ⟨[insertValues 1 pad7], 2⟩ =
      (.error ⟨404, "ProcessedAgentData not found"⟩, ⟨[insertValues 1 pad7], 2⟩) :=
  C7_not_found ⟨[insertValues 1 pad7], 2⟩ 5 pad7 (by decide)

/-- Claim C8: deleting a stored id (ids being unique in the store) returns
the row as it existed before the deletion and removes exactly that row — the
new row list is the old one with precisely the matching row filtered out, so
every other row is untouched; the matching rows were exactly `[r]`. -/
theorem C8_delete_exact_row (db : DB) (i : Int) (r : Row)
    (hnd : (db.rows.map Row.id).Nodup) (hmem : r ∈ db.rows) (hid : r.id = i) :
    delete_processed_agent_data i db =
      (.ok r, { db with rows := db.rows.filter (fun x => x.id != i) }) ∧
    db.rows.filter (fun x => x.id == i) = [r] := by
  obtain ⟨hfind, hfil⟩ := find?_filter_of_nodup hnd hmem hid
  refine ⟨?_, hfil⟩
  unfold delete_processed_agent_data
  rw [hfind]

/-- Claim C8 (witness): deleting id 1 from a two-row store removes exactly
row 1 and returns it. -/
theorem C8_delete_exact_row_witness :
    delete_processed_agent_data 1 ⟨[insertValues 1 pad7, insertValues 2 padEmptyRoad], 3⟩ =
      (.ok (insertValues 1 pad7),
       { rows := [insertValues 1 pad7, insertValues 2 padEmptyRoad].filter
           (fun x => x.id != 1),
         nextId := 3 }) ∧
    [insertValues 1 pad7, insertValues 2 padEmptyRoad].filter (fun x => x.id == 1) =
      [insertValues 1 pad7] :=
  C8_delete_exact_row ⟨[insertValues 1 pad7, insertValues 2 padEmptyRoad], 3⟩ 1
    (insertValues 1 pad7) (by decide) (by decide) (by decide)

/-- Claim C9: within a create request, the commit of a row happens before the
broadcast for that row — wherever the trace shows the broadcast call for a
row id, the commit event for that same row id appears strictly earlier. -/
theorem C9_commit_before_broadcast (st : AppState)
    (items : List ProcessedAgentData) (i : Nat) (uid rid : Int)
    (h : (createTrace st items).get? i = some (.sendAttempt uid (.cursor rid))) :
    ∃ j, j < i ∧ (createTrace st items).get? j = some (.committed rid) := by
  have hc : createTrace st items =
      batchTrace st.db.nextId (items.take (runLen st.subscriptions items)) := by
    unfold createTrace
    rw [createLoop_eq]
  rw [hc] at h ⊢
  exact batchTrace_commit_precedes _ _ _ _ _ h

/-- Claim C9 (witness): in the concrete trace of a create with a live
subscriber, the broadcast call at position 1 is preceded by the commit of the
same row at position 0. -/
theorem C9_commit_before_broadcast_witness :
    ∃ j, j < 1 ∧ (createTrace st1 [pad7]).get? j = some (.committed 1) :=
  C9_commit_before_broadcast st1 [pad7] 1 7 1 (by decide)

/-- Claim C10: batch creates are processed strictly in list order, each item
committed in its own transaction before the next is attempted (the trace is
the in-order commit/broadcast event sequence of the processed prefix). If no
broadcast fails the whole batch is committed and the handler succeeds; if the
broadcast of item k fails, the items through k stay committed (the failing
item's own commit precedes its broadcast), no later item is attempted, and
the exception propagates to the caller. -/
theorem C10_batch_per_item_commit (st : AppState)
    (items : List ProcessedAgentData) :
    (firstFailIdx st.subscriptions items = none →
      createLoop st items =
        ({ db := st.db.insertAll items, subscriptions := st.subscriptions },
         batchTrace st.db.nextId items, none)) ∧
    (∀ k, firstFailIdx st.subscriptions items = some k →
      createLoop st items =
        ({ db := st.db.insertAll (items.take (k + 1)),
           subscriptions := st.subscriptions },
         batchTrace st.db.nextId (items.take (k + 1)), some .typeError)) := by
  constructor
  · intro h
    rw [createLoop_eq]
    unfold runLen runErr
    rw [h]
    simp [List.take_length]
  · intro k h
    rw [createLoop_eq]
    unfold runLen runErr
    rw [h]

/-- Claim C10 (witness): a two-item batch whose first item's broadcast fails
commits exactly the first item, never attempts the second, and raises. -/
theorem C10_batch_per_item_commit_witness :
    createLoop st1 [pad7, padEmptyRoad] =
      ({ db := st1.db.insertAll ([pad7, padEmptyRoad].take 1),
         subscriptions := st1.subscriptions },
       batchTrace st1.db.nextId ([pad7, padEmptyRoad].take 1), some .typeError) :=
  (C10_batch_per_item_commit st1 [pad7, padEmptyRoad]).2 0 (by decide)
